import Mathlib

/-!
Verification development for the event-management core of the
`intervals-icu-mcp` repository (file
`src/intervals_icu_mcp/tools/event_management.py`).

The Python functions `parse_start_date_local`, `_normalize_category`,
`_normalize_event_type`, `_diagnose_event_error`, the payload-building part
of `create_event` and the pre-network validation loop of
`bulk_create_events` are shallowly embedded as executable Lean functions.
JSON values are modelled by the inductive `JValue`; Python dicts (which
preserve insertion order and have unique keys) are modelled as ordered
association lists.  Wall-clock timestamps and the final `json.dumps`
serialisation of envelopes are outside the model: an error envelope is
represented structurally by `ErrorResponse` (message, type, suggestions).
-/

/-- JSON-typed Python value, as produced by `json.loads` / passed around as
event payloads.  `jint`/`jfloat` mirror Python's `int`/`float`; `jobj`
keeps the insertion order of the Python dict. -/
inductive JValue where
  | jnull
  | jbool (b : Bool)
  | jint (n : Int)
  | jfloat (q : Rat)
  | jstr (s : String)
  | jarr (elems : List JValue)
  | jobj (fields : List (String × JValue))

/-- Python truthiness (`if x:`) for JSON-typed values: `None`, `False`,
zero numbers, empty strings and empty containers are falsy. -/
def truthy : JValue → Bool
  | .jnull => false
  | .jbool b => b
  | .jint n => n != 0
  | .jfloat q => q != 0
  | .jstr s => s != ""
  | .jarr l => !l.isEmpty
  | .jobj f => !f.isEmpty

/-- Python `type(x).__name__` for JSON-typed values. -/
def pyTypeName : JValue → String
  | .jnull => "NoneType"
  | .jbool _ => "bool"
  | .jint _ => "int"
  | .jfloat _ => "float"
  | .jstr _ => "str"
  | .jarr _ => "list"
  | .jobj _ => "dict"

/-- Python `isinstance(x, (int, float))`; note that Python `bool` is a
subclass of `int`, so booleans count as numeric. -/
def pyIsNumber : JValue → Bool
  | .jint _ => true
  | .jfloat _ => true
  | .jbool _ => true
  | _ => false

/-- An event payload: a Python dict with string keys, in insertion order. -/
abbrev Payload := List (String × JValue)

/-- Dict lookup (`payload[k]` / `payload.get(k)`), first matching key. -/
def lookupKey : Payload → String → Option JValue
  | [], _ => none
  | (k, v) :: rest, key => if k == key then some v else lookupKey rest key

/-- Python `k in payload`. -/
def containsKey (p : Payload) (k : String) : Bool :=
  (lookupKey p k).isSome

/-- Python `payload.pop(k)` (removal part): drops the entry for `k`. -/
def removeKey (p : Payload) (k : String) : Payload :=
  p.filter (fun kv => kv.1 != k)

/-- Python `payload[k] = v`: updates an existing key in place (keeping its
position) or appends a new key at the end. -/
def setKey (p : Payload) (k : String) (v : JValue) : Payload :=
  if containsKey p k then
    p.map (fun kv => if kv.1 == k then (k, v) else kv)
  else
    p ++ [(k, v)]

/-- Assoc-list lookup for the static string-to-string alias tables. -/
def lookupStr : List (String × String) → String → Option String
  | [], _ => none
  | (k, v) :: rest, key => if k == key then some v else lookupStr rest key

/-- Boolean substring test, Python `needle in hay` for strings
(the empty needle is contained in every string). -/
def charsInfix (needle : List Char) : List Char → Bool
  | [] => needle.isEmpty
  | c :: rest => needle.isPrefixOf (c :: rest) || charsInfix needle rest

/-- String form of the substring test. -/
def isSubstrOf (needle hay : String) : Bool :=
  charsInfix needle.toList hay.toList

/-- The 14 valid event categories (`VALID_CATEGORIES` in the source). -/
def VALID_CATEGORIES : List String :=
  ["WORKOUT", "RACE_A", "RACE_B", "RACE_C", "NOTE", "PLAN",
   "HOLIDAY", "SICK", "INJURED", "SET_EFTP", "FITNESS_DAYS",
   "SEASON_START", "TARGET", "SET_FITNESS"]

/-- Auto-correct table for common category mistakes
(`_CATEGORY_ALIASES` in the source). -/
def _CATEGORY_ALIASES : List (String × String) :=
  [("RACE", "RACE_A"),
   ("GOAL", "TARGET"),
   ("REST", "HOLIDAY"),
   ("INJURY", "INJURED"),
   ("FTP", "SET_EFTP")]

/-- The 37 valid sport/activity types (`_VALID_TYPES` in the source). -/
def _VALID_TYPES : List String :=
  ["Ride", "Run", "Swim", "WeightTraining", "Hike", "Walk",
   "AlpineSki", "BackcountrySki", "Canoeing", "Crossfit",
   "EBikeRide", "Elliptical", "Golf", "GravelRide",
   "Handcycle", "IceSkate", "InlineSkate", "Kayaking",
   "Kitesurf", "MountainBikeRide", "NordicSki", "RockClimbing",
   "RollerSki", "Rowing", "Snowboard", "Snowshoe",
   "StairStepper", "StandUpPaddling", "Surfing",
   "TrailRun", "VirtualRide", "VirtualRun", "Wheelchair",
   "Windsurf", "Workout", "Yoga", "Other"]

/-- Known API field names for events (`_VALID_EVENT_FIELDS` in the source;
a Python set, listed here in source order). -/
def _VALID_EVENT_FIELDS : List String :=
  ["start_date_local", "end_date_local", "name", "category", "type",
   "description", "moving_time", "distance", "icu_training_load",
   "indoor", "color", "external_id", "tags", "workout_doc",
   "athlete_cannot_edit", "hide_from_athlete", "target",
   "carbs_per_hour", "sub_type", "not_on_fitness_chart"]

/-- The result of Python `sorted(_VALID_EVENT_FIELDS)` (lexicographic order
of the 20 field names), used verbatim in the unknown-field suggestion. -/
def sortedValidEventFields : List String :=
  ["athlete_cannot_edit", "carbs_per_hour", "category", "color",
   "description", "distance", "end_date_local", "external_id",
   "hide_from_athlete", "icu_training_load", "indoor", "moving_time",
   "name", "not_on_fitness_chart", "start_date_local", "sub_type",
   "tags", "target", "type", "workout_doc"]

/-- Common field-name mistakes mapped to the correct field name
(`_FIELD_ALIASES` in the source, in dict insertion order). -/
def _FIELD_ALIASES : List (String × String) :=
  [("start_date", "start_date_local"),
   ("date", "start_date_local"),
   ("duration", "moving_time"),
   ("duration_seconds", "moving_time"),
   ("time", "moving_time"),
   ("load", "icu_training_load"),
   ("training_load", "icu_training_load"),
   ("tss", "icu_training_load"),
   ("sport_type", "type"),
   ("activity_type", "type"),
   ("event_type", "type"),
   ("workout_type", "type"),
   ("distance_meters", "distance"),
   ("title", "name")]

/-- Python `str.upper()` (ASCII, which covers every string the taxonomies
contain), implemented on the character list so that it evaluates by
definitional reduction. -/
def pyUpper (s : String) : String :=
  String.mk (s.toList.map Char.toUpper)

/-- Python `str.lower()` (ASCII), implemented on the character list so
that it evaluates by definitional reduction. -/
def pyLower (s : String) : String :=
  String.mk (s.toList.map Char.toLower)

/-- Error message of `_normalize_category` for an unknown category. -/
def invalidCategoryMessage (category : String) : String :=
  "Invalid category '" ++ category ++ "'. " ++
  "Must be one of: " ++ String.intercalate ", " VALID_CATEGORIES ++ ". " ++
  "Common aliases: RACE→RACE_A, GOAL→TARGET, REST→HOLIDAY, " ++
  "INJURY→INJURED, FTP→SET_EFTP."

/-- Embedding of `_normalize_category`: upper-case the input, auto-correct
known aliases, accept canonical categories, otherwise fail with the
enumerating message.  Python raising `ValueError` is modelled as
`Except.error` carrying the message. -/
def _normalize_category (category : String) : Except String String :=
  match lookupStr _CATEGORY_ALIASES (pyUpper category) with
  | some corrected => .ok corrected
  | none =>
    if VALID_CATEGORIES.contains (pyUpper category) then
      .ok (pyUpper category)
    else
      .error (invalidCategoryMessage category)

/-- The bidirectional-substring candidate set used for fuzzy sport-type
matching: canonical types where the lower-cased input is a substring of the
type or the type (lower-cased) is a substring of the input. -/
def typeCandidates (event_type : String) : List String :=
  _VALID_TYPES.filter (fun t =>
    isSubstrOf (pyLower event_type) (pyLower t) ||
    isSubstrOf (pyLower t) (pyLower event_type))

/-- Error message of `_normalize_event_type` for an ambiguous type. -/
def ambiguousTypeMessage (event_type : String) (ms : List String) : String :=
  "Ambiguous activity type '" ++ event_type ++ "'. " ++
  "Did you mean one of: " ++ String.intercalate ", " ms ++ "?"

/-- Error message of `_normalize_event_type` for an unknown type. -/
def unknownTypeMessage (event_type : String) : String :=
  "Unknown activity type '" ++ event_type ++ "'. " ++
  "Valid types: Ride, Run, Swim, VirtualRide, GravelRide, " ++
  "TrailRun, WeightTraining, Hike, Walk, Yoga, Other. " ++
  "Use exact casing (e.g., 'Ride' not 'ride')."

/-- Embedding of `_normalize_event_type`.  The Python case-insensitive
lookup dict `{t.lower(): t for t in _VALID_TYPES}` has 37 distinct keys, so
it is equivalent to a first-match search.  On a miss, the bidirectional
substring candidates decide between unique fuzzy match, ambiguous error and
unknown error. -/
def _normalize_event_type (event_type : String) : Except String String :=
  match _VALID_TYPES.find? (fun t => pyLower t == pyLower event_type) with
  | some t => .ok t
  | none =>
    match typeCandidates event_type with
    | [m] => .ok m
    | [] => .error (unknownTypeMessage event_type)
    | ms => .error (ambiguousTypeMessage event_type ms)

/-- Numeric value of a decimal digit character. -/
def digitVal (c : Char) : Nat := c.toNat - '0'.toNat

/-- Parse exactly four decimal digits (the `%Y` directive of Python
`strptime`, whose regex is four digits). -/
def parseYear4 : List Char → Option (Nat × List Char)
  | a :: b :: c :: d :: rest =>
    if a.isDigit && b.isDigit && c.isDigit && d.isDigit then
      some (digitVal a * 1000 + digitVal b * 100 + digitVal c * 10 + digitVal d, rest)
    else none
  | _ => none

/-- Parse a one-or-two digit field the way a Python `strptime` directive's
regex does: consume two digits when their value satisfies `ok2`, otherwise
one digit when its value satisfies `ok1`, otherwise fail.  (For these
formats a locally successful two-digit parse never needs to backtrack to
one digit, since the following character is a digit while every following
format element is a non-digit literal or end of input.) -/
def parseNum2or1 (ok2 ok1 : Nat → Bool) : List Char → Option (Nat × List Char)
  | a :: b :: rest =>
    if a.isDigit && b.isDigit && ok2 (digitVal a * 10 + digitVal b) then
      some (digitVal a * 10 + digitVal b, b :: rest |>.tail)
    else if a.isDigit && ok1 (digitVal a) then
      some (digitVal a, b :: rest)
    else none
  | [a] =>
    if a.isDigit && ok1 (digitVal a) then some (digitVal a, []) else none
  | [] => none

/-- The `%m` directive: months 1-12 (regex `1[0-2]|0[1-9]|[1-9]`). -/
def parseMonth : List Char → Option (Nat × List Char) :=
  parseNum2or1 (fun v => 1 ≤ v && v ≤ 12) (fun v => 1 ≤ v && v ≤ 9)

/-- The `%d` directive: days 1-31 (regex `3[01]|[12]\d|0[1-9]|[1-9]`). -/
def parseDay : List Char → Option (Nat × List Char) :=
  parseNum2or1 (fun v => 1 ≤ v && v ≤ 31) (fun v => 1 ≤ v && v ≤ 9)

/-- The `%H` directive: hours 0-23 (regex `2[0-3]|[0-1]\d|\d`). -/
def parseHour : List Char → Option (Nat × List Char) :=
  parseNum2or1 (fun v => v ≤ 23) (fun _ => true)

/-- The `%M` and `%S` directives: 0-59 (regex `[0-5]\d|\d`). -/
def parseMinSec : List Char → Option (Nat × List Char) :=
  parseNum2or1 (fun v => v ≤ 59) (fun _ => true)

/-- Consume one expected literal character. -/
def expectChar (c : Char) : List Char → Option (List Char)
  | x :: rest => if x == c then some rest else none
  | [] => none

/-- Gregorian leap year, as used by Python `datetime`. -/
def isLeapYear (y : Nat) : Bool :=
  (y % 4 == 0 && y % 100 != 0) || y % 400 == 0

/-- Days in a month, as validated by the Python `datetime` constructor. -/
def daysInMonth (y m : Nat) : Nat :=
  if m == 2 then (if isLeapYear y then 29 else 28)
  else if m == 4 || m == 6 || m == 9 || m == 11 then 30
  else 31

/-- A Python `datetime` value as produced by `strptime` (date plus time of
day); fields already satisfy the constructor's range checks. -/
structure PyDateTime where
  year : Nat
  month : Nat
  day : Nat
  hour : Nat
  minute : Nat
  second : Nat

/-- Range validation done by the `datetime` constructor after the regex
match: year at least 1 (`MINYEAR`; at most 9999 is automatic for a
four-digit year) and day within the month. -/
def validYMD (y m d : Nat) : Bool :=
  1 ≤ y && 1 ≤ d && d ≤ daysInMonth y m

/-- Parse the date part `%Y-%m-%d`, returning the remaining characters. -/
def parseYMDPrefix (cs : List Char) : Option (Nat × Nat × Nat × List Char) :=
  match parseYear4 cs with
  | none => none
  | some (y, r1) =>
    match expectChar '-' r1 with
    | none => none
    | some r2 =>
      match parseMonth r2 with
      | none => none
      | some (m, r3) =>
        match expectChar '-' r3 with
        | none => none
        | some r4 =>
          match parseDay r4 with
          | none => none
          | some (d, r5) => some (y, m, d, r5)

/-- Python `datetime.strptime(s, "%Y-%m-%d")`: whole string must be
consumed and the date must pass the constructor's range checks. -/
def strptimeDate (s : String) : Option PyDateTime :=
  match parseYMDPrefix s.toList with
  | some (y, m, d, []) =>
    if validYMD y m d then some ⟨y, m, d, 0, 0, 0⟩ else none
  | _ => none

/-- Parse the time part `HH:MM` with optional `:SS` decided by `withSec`. -/
def parseTimeTail (withSec : Bool) (cs : List Char) : Option (Nat × Nat × Nat) :=
  match parseHour cs with
  | none => none
  | some (h, r1) =>
    match expectChar ':' r1 with
    | none => none
    | some r2 =>
      match parseMinSec r2 with
      | none => none
      | some (mi, r3) =>
        if withSec then
          match expectChar ':' r3 with
          | none => none
          | some r4 =>
            match parseMinSec r4 with
            | some (se, []) => some (h, mi, se)
            | _ => none
        else
          match r3 with
          | [] => some (h, mi, 0)
          | _ => none

/-- Python `datetime.strptime(s, "%Y-%m-%dT%H:%M:%S")`. -/
def strptimeDateTimeFull (s : String) : Option PyDateTime :=
  match parseYMDPrefix s.toList with
  | some (y, m, d, 'T' :: rest) =>
    match parseTimeTail true rest with
    | some (h, mi, se) =>
      if validYMD y m d then some ⟨y, m, d, h, mi, se⟩ else none
    | none => none
  | _ => none

/-- Python `datetime.strptime(s, "%Y-%m-%dT%H:%M")`. -/
def strptimeDateTimeHM (s : String) : Option PyDateTime :=
  match parseYMDPrefix s.toList with
  | some (y, m, d, 'T' :: rest) =>
    match parseTimeTail false rest with
    | some (h, mi, se) =>
      if validYMD y m d then some ⟨y, m, d, h, mi, se⟩ else none
    | none => none
  | _ => none

/-- Zero-pad a number to two digits. -/
def pad2 (n : Nat) : String :=
  if n < 10 then "0" ++ toString n else toString n

/-- Zero-pad a number to four digits. -/
def pad4 (n : Nat) : String :=
  if n < 10 then "000" ++ toString n
  else if n < 100 then "00" ++ toString n
  else if n < 1000 then "0" ++ toString n
  else toString n

/-- Python `dt.strftime("%Y-%m-%dT%H:%M:%S")`. -/
def formatDateTime (dt : PyDateTime) : String :=
  pad4 dt.year ++ "-" ++ pad2 dt.month ++ "-" ++ pad2 dt.day ++ "T" ++
  pad2 dt.hour ++ ":" ++ pad2 dt.minute ++ ":" ++ pad2 dt.second

/-- The `if "T" in date_str:` block of `parse_start_date_local`: when the
string contains a `T`, try the full then the minutes-only datetime format;
`none` when the block falls through without returning. -/
def tryTFormats (date_str : String) : Option PyDateTime :=
  if date_str.toList.contains 'T' then
    match strptimeDateTimeFull date_str with
    | some dt => some dt
    | none => strptimeDateTimeHM date_str
  else
    none

/-- Error message raised by `parse_start_date_local`. -/
def invalidDateMessage (date_str : String) : String :=
  "Invalid date format: " ++ date_str ++ ". Use YYYY-MM-DD or YYYY-MM-DDTHH:MM:SS"

/-- Embedding of `parse_start_date_local`: the `T` block returns on a
match; otherwise (including for strings that contain a `T` but match
neither datetime format) the first 10 characters are parsed as a bare
date, and only if that also fails is a `ValueError` raised. -/
def parse_start_date_local (date_str : String) : Except String String :=
  match tryTFormats date_str with
  | some dt => .ok (formatDateTime dt)
  | none =>
    match strptimeDate (String.mk (date_str.toList.take 10)) with
    | some dt => .ok (formatDateTime dt)
    | none => .error (invalidDateMessage date_str)

/-- Structured form of `ResponseBuilder.build_error_response`'s output:
message, error type, and suggestion list.  The real builder additionally
stamps a wall-clock timestamp and serialises to JSON (and omits the
`suggestions` key when the list is empty); those parts carry no logic and
are outside the model. -/
structure ErrorResponse where
  message : String
  error_type : String
  suggestions : List String
deriving DecidableEq

/-- Embedding of `ResponseBuilder.build_error_response` (modulo timestamp
and JSON serialisation, see `ErrorResponse`). -/
def build_error_response (error_message : String) (error_type : String)
    (suggestions : List String) : ErrorResponse :=
  ⟨error_message, error_type, suggestions⟩

/-- Modelled from the spec: the typed API error of the client module (the
client itself is not part of the analysed sources).  Per the spec it
exposes the HTTP status code, a short message, the raw response body text
and the exact outbound request payload that triggered the error. -/
structure ICUAPIError where
  status_code : Nat
  message : String
  response_text : Option String
  request_payload : Option JValue

/-- Python `a or b` for an optional string `a`: `b` when `a` is `None` or
empty. -/
def pyStrOr (a : Option String) (b : String) : String :=
  match a with
  | some s => if s != "" then s else b
  | none => b

/-- Python `error.request_payload or {}`: a missing or falsy payload is
replaced by the empty dict. -/
def coercedPayload (e : ICUAPIError) : JValue :=
  match e.request_payload with
  | none => .jobj []
  | some v => if truthy v then v else .jobj []

/-- The guard `cat and isinstance(cat, str)` used by the per-field checks
of `_diagnose_event_error`: yields the string only when the value is a
non-empty string. -/
def asTruthyStr (v : JValue) : Option String :=
  match v with
  | .jstr s => if s != "" then some s else none
  | _ => none

/-- Wrong-field-name pass of `_diagnose_event_error`: for every payload
key in order, a known alias yields a rename suggestion, an unknown field a
removal suggestion. -/
def fieldNameSuggestions (p : Payload) : List String :=
  (p.map (fun kv =>
    match lookupStr _FIELD_ALIASES kv.1 with
    | some correct =>
      ["Field '" ++ kv.1 ++ "' is not a valid API field. " ++
       "Use '" ++ correct ++ "' instead."]
    | none =>
      if _VALID_EVENT_FIELDS.contains kv.1 then []
      else
        ["Unknown field '" ++ kv.1 ++ "'. Valid fields: " ++
         String.intercalate ", " sortedValidEventFields ++ "."])).flatten

/-- Category check of `_diagnose_event_error`: only runs when the value is
a truthy string. -/
def categorySuggestions (p : Payload) : List String :=
  match asTruthyStr ((lookupKey p "category").getD (.jstr "")) with
  | none => []
  | some cat =>
    if VALID_CATEGORIES.contains (pyUpper cat) then []
    else
      match lookupStr _CATEGORY_ALIASES (pyUpper cat) with
      | some corrected =>
        ["Category '" ++ cat ++ "' is invalid. " ++
         "Use '" ++ corrected ++ "' instead."]
      | none =>
        ["Category '" ++ cat ++ "' is not valid. " ++
         "Must be one of: " ++ String.intercalate ", " VALID_CATEGORIES ++ ". " ++
         "Common mappings: RACE→RACE_A, GOAL→TARGET, " ++
         "REST→HOLIDAY, INJURY→INJURED, FTP→SET_EFTP."]

/-- Date validity test of the diagnostic engine: the three accepted
formats tried on the full string. -/
def diagDateValid (s : String) : Bool :=
  (strptimeDateTimeFull s).isSome || (strptimeDateTimeHM s).isSome ||
  (strptimeDate s).isSome

/-- Date check of `_diagnose_event_error`: format check for a truthy
string value, otherwise the `start_date` rename hint or the
missing-required-field flag. -/
def dateSuggestions (p : Payload) : List String :=
  match asTruthyStr ((lookupKey p "start_date_local").getD (.jstr "")) with
  | some date_val =>
    if diagDateValid date_val then []
    else
      ["Date '" ++ date_val ++ "' has invalid format. " ++
       "Use YYYY-MM-DD or YYYY-MM-DDTHH:MM:SS. " ++
       "Example: '2026-03-01' or '2026-03-01T14:00:00'."]
  | none =>
    if containsKey p "start_date" && !containsKey p "start_date_local" then
      ["Missing 'start_date_local'. The API requires 'start_date_local', " ++
       "not 'start_date'. Rename the field."]
    else if !containsKey p "start_date_local" then
      ["Missing required field 'start_date_local'. " ++
       "Every event needs a date in YYYY-MM-DD format."]
    else []

/-- Sport-type check of `_diagnose_event_error`: only runs when the value
is a truthy string not already in the canonical set. -/
def typeSuggestions (p : Payload) : List String :=
  match asTruthyStr ((lookupKey p "type").getD (.jstr "")) with
  | none => []
  | some type_val =>
    if _VALID_TYPES.contains type_val then []
    else
      match typeCandidates type_val with
      | [] =>
        ["Activity type '" ++ type_val ++ "' is not recognized. " ++
         "Common types: Ride, Run, Swim, VirtualRide, " ++
         "GravelRide, TrailRun, WeightTraining, Hike."]
      | close =>
        ["Activity type '" ++ type_val ++ "' may not be valid. " ++
         "Did you mean: " ++ String.intercalate ", " close ++ "?"]

/-- moving_time type check of `_diagnose_event_error` (`mt is not None and
not isinstance(mt, (int, float))`). -/
def movingTimeSuggestions (p : Payload) : List String :=
  match lookupKey p "moving_time" with
  | none => []
  | some .jnull => []
  | some v =>
    if pyIsNumber v then []
    else
      ["'moving_time' must be an integer (seconds), got " ++ pyTypeName v ++
       ". Examples: 3600=1h, 5400=1.5h, 7200=2h."]

/-- distance type check of `_diagnose_event_error`. -/
def distanceSuggestions (p : Payload) : List String :=
  match lookupKey p "distance" with
  | none => []
  | some .jnull => []
  | some v =>
    if pyIsNumber v then []
    else
      ["'distance' must be a number (meters), got " ++ pyTypeName v ++
       ". Examples: 40000=40km, 100000=100km."]

/-- workout_doc structure check of `_diagnose_event_error`. -/
def workoutDocSuggestions (p : Payload) : List String :=
  match lookupKey p "workout_doc" with
  | none => []
  | some .jnull => []
  | some (.jobj fields) =>
    if !containsKey fields "description" && !containsKey fields "steps" then
      ["'workout_doc' should contain 'description' (text format) and/or 'steps' (array). " ++
       "For text-based workouts, use: " ++
       "\x7b\"description\": \"workout text here\", \"steps\": []\x7d"]
    else []
  | some _ =>
    ["'workout_doc' must be a JSON object. " ++
     "Example: \x7b\"description\": \"Warmup\\n- 10m ramp 45-55%\", \"steps\": []\x7d"]

/-- Missing-`name` flag of `_diagnose_event_error`. -/
def missingNameSuggestions (p : Payload) : List String :=
  if !containsKey p "name" then
    ["Missing required field 'name'. Every event needs a name."]
  else []

/-- Missing-`category` flag of `_diagnose_event_error`. -/
def missingCategorySuggestions (p : Payload) : List String :=
  if !containsKey p "category" then
    ["Missing required field 'category'. " ++
     "Use WORKOUT for training, NOTE for notes, RACE_A for races, etc."]
  else []

/-- All field-level checks of `_diagnose_event_error`, accumulated in
source order into one suggestion list. -/
def accumulatedSuggestions (p : Payload) : List String :=
  fieldNameSuggestions p ++ categorySuggestions p ++ dateSuggestions p ++
  typeSuggestions p ++ movingTimeSuggestions p ++ distanceSuggestions p ++
  workoutDocSuggestions p ++ missingNameSuggestions p ++
  missingCategorySuggestions p

/-- Generic fallback used when no specific issue was found. -/
def fallbackSuggestions (e : ICUAPIError) : List String :=
  ["The Intervals.icu API rejected this request. Check that all field " ++
   "names and values match the expected format.",
   "Required fields: start_date_local (YYYY-MM-DD), name (string), " ++
   "category (" ++ String.intercalate ", " (VALID_CATEGORIES.take 5) ++ "...).",
   "Optional fields: type (Ride/Run/Swim), moving_time (seconds), " ++
   "distance (meters), description (string), workout_doc (object).",
   "API response: " ++ pyStrOr e.response_text e.message]

/-- The final suggestion list of `_diagnose_event_error` for a dict
payload: the accumulated field-level checks, or the generic fallback when
they found nothing. -/
def diagnoseSuggestions (e : ICUAPIError) (p : Payload) : List String :=
  if (accumulatedSuggestions p).isEmpty then fallbackSuggestions e
  else accumulatedSuggestions p

/-- The three fixed suggestions of the non-object short-circuit branch. -/
def nonObjectSuggestions : List String :=
  ["Payload must be a JSON object with string keys.",
   "Required keys: start_date_local, name, category.",
   "Example: \x7b\"start_date_local\": \"2026-03-01\", " ++
   "\"name\": \"Easy Ride\", \"category\": \"WORKOUT\", " ++
   "\"type\": \"Ride\"\x7d"]

/-- Message of the non-object short-circuit branch. -/
def nonObjectMessage (v : JValue) : String :=
  "The event payload must be a JSON object (dict), not a " ++
  pyTypeName v ++ ". Build a dict with keys like " ++
  "'start_date_local', 'name', 'category', 'type', etc."

/-- Embedding of `_diagnose_event_error`: coerce a falsy payload to the
empty dict, short-circuit with a `validation_error` envelope when the
payload is not a dict, otherwise accumulate all field-level checks (with
generic fallback) into an `api_validation_error` envelope whose message
counts the issues found. -/
def _diagnose_event_error (e : ICUAPIError) : ErrorResponse :=
  match coercedPayload e with
  | .jobj p =>
    build_error_response
      ("Intervals.icu API rejected the event creation request. " ++
       "Found " ++ toString (diagnoseSuggestions e p).length ++ " issue(s) to fix.")
      "api_validation_error"
      (diagnoseSuggestions e p)
  | v =>
    build_error_response (nonObjectMessage v) "validation_error"
      nonObjectSuggestions

/-- Optional string field of `create_event`'s payload build: included only
when the argument is provided and truthy (non-empty). -/
def optStrField (k : String) (v : Option String) : Payload :=
  match v with
  | some s => if s != "" then [(k, .jstr s)] else []
  | none => []

/-- Optional integer field of `create_event`'s payload build: included
only when the argument is provided and truthy (non-zero). -/
def optIntField (k : String) (v : Option Int) : Payload :=
  match v with
  | some n => if n != 0 then [(k, .jint n)] else []
  | none => []

/-- Optional float field of `create_event`'s payload build (Python floats
modelled as rationals; only truthiness, i.e. comparison with zero, is
used): included only when the argument is provided and non-zero. -/
def optFloatField (k : String) (v : Option Rat) : Payload :=
  match v with
  | some q => if q != 0 then [(k, .jfloat q)] else []
  | none => []

/-- Embedding of the `event_data` construction of `create_event` (source
lines 384-400), after category/type/date normalization has succeeded: the
three required fields, then each optional field appended only if its
argument is truthy (`if description: ... if training_load: ...`). -/
def buildCreateEventData (start_date_local name normalized_category : String)
    (description : Option String) (normalized_type : Option String)
    (duration_seconds : Option Int) (distance_meters : Option Rat)
    (training_load : Option Int) : Payload :=
  [("start_date_local", .jstr start_date_local),
   ("name", .jstr name),
   ("category", .jstr normalized_category)] ++
  optStrField "description" description ++
  optStrField "type" normalized_type ++
  optIntField "moving_time" duration_seconds ++
  optFloatField "distance" distance_meters ++
  optIntField "icu_training_load" training_load

/-- A validation-error envelope of `bulk_create_events`, message prefixed
with the index of the offending item (the Python
`f"Event \x7bi\x7d: ..."` pattern). -/
def eventValidationError (i : Nat) (msg : String) : ErrorResponse :=
  build_error_response ("Event " ++ toString i ++ ": " ++ msg)
    "validation_error" []

/-- Stand-in for the `internal_error` envelope produced when the per-item
validation of `bulk_create_events` applies a string method to a non-string
value: Python raises (AttributeError/TypeError), which the surrounding
generic handler converts to an `internal_error` envelope whose message
interpolates the exception text.  The exception text itself is not
modelled. -/
def internalErrorEnvelope : ErrorResponse :=
  build_error_response "Unexpected error" "internal_error" []

/-- Field-alias auto-correction step of `bulk_create_events` (source lines
654-657): one iteration of the loop over `_FIELD_ALIASES`.  The value is
renamed only when the wrong name is present and the correct name absent;
`pop` removes the wrong key and the assignment appends the correct key at
the end. -/
def applyAliasStep (p : Payload) (wc : String × String) : Payload :=
  if containsKey p wc.1 && !containsKey p wc.2 then
    setKey (removeKey p wc.1) wc.2 ((lookupKey p wc.1).getD .jnull)
  else p

/-- The whole field-alias auto-correction loop of `bulk_create_events`,
over the 14 aliases in dict order. -/
def applyFieldAliases (p : Payload) : Payload :=
  _FIELD_ALIASES.foldl applyAliasStep p

/-- Date-format validation at the end of `bulk_create_events`' per-item
loop: strict `%Y-%m-%d` on the (string) value of `start_date_local`. -/
def validateEventDate (i : Nat) (p : Payload) : Except ErrorResponse Payload :=
  match (lookupKey p "start_date_local").getD .jnull with
  | .jstr d =>
    if (strptimeDate d).isSome then .ok p
    else
      .error (eventValidationError i
        ("Invalid date format '" ++ d ++ "'. " ++
         "Use YYYY-MM-DD format (e.g., '2026-03-01')."))
  | _ => .error internalErrorEnvelope

/-- Sport-type normalization step of `bulk_create_events`' per-item loop,
followed by the date validation. -/
def validateEventType (i : Nat) (p : Payload) : Except ErrorResponse Payload :=
  match lookupKey p "type" with
  | none => validateEventDate i p
  | some (.jstr t) =>
    match _normalize_event_type t with
    | .error msg => .error (eventValidationError i msg)
    | .ok ty => validateEventDate i (setKey p "type" (.jstr ty))
  | some _ => .error internalErrorEnvelope

/-- Per-item validation and normalization of `bulk_create_events` (source
lines 631-677): presence of the three required fields, category
normalization (written back into the payload), field-alias correction,
sport-type normalization, then date-format validation. -/
def validateEvent (i : Nat) (p : Payload) : Except ErrorResponse Payload :=
  if !containsKey p "start_date_local" then
    .error (eventValidationError i "Missing required field 'start_date_local'")
  else if !containsKey p "name" then
    .error (eventValidationError i "Missing required field 'name'")
  else if !containsKey p "category" then
    .error (eventValidationError i "Missing required field 'category'")
  else
    match (lookupKey p "category").getD .jnull with
    | .jstr c =>
      match _normalize_category c with
      | .error msg => .error (eventValidationError i msg)
      | .ok cat => validateEventType i (applyFieldAliases (setKey p "category" (.jstr cat)))
    | _ => .error internalErrorEnvelope

/-- The `for i, event_data in enumerate(events_data):` loop of
`bulk_create_events`: validates the items in order starting at index `i0`,
stopping at the first failure. -/
def validateAllEvents (i0 : Nat) : List Payload → Except ErrorResponse (List Payload)
  | [] => .ok []
  | p :: rest =>
    match validateEvent i0 p with
    | .error e => .error e
    | .ok q =>
      match validateAllEvents (i0 + 1) rest with
      | .error e => .error e
      | .ok qs => .ok (q :: qs)

/-- Outcome of the pre-network phase of `bulk_create_events`: either an
error envelope returned without any network activity, or the point where
`client.bulk_create_events` is invoked with the validated, normalized
payloads. -/
inductive BulkOutcome where
  | errored (e : ErrorResponse)
  | submitted (payloads : List Payload)

/-- Embedding of the pre-network phase of `bulk_create_events`, starting
from the parsed JSON array of event objects: every item is validated and
normalized before the single network call; the first failure aborts the
whole batch. -/
def bulk_create_events (items : List Payload) : BulkOutcome :=
  match validateAllEvents 0 items with
  | .error e => .errored e
  | .ok qs => .submitted qs

/-- Every index below a successful run of the validation loop was
validated successfully (auxiliary induction on the item list). -/
theorem validateAllEvents_ok_nth (items : List Payload) : ∀ (n : Nat) (qs : List Payload),
    validateAllEvents n items = .ok qs →
    ∀ i (h : i < items.length), ∃ q, validateEvent (n + i) (items.get ⟨i, h⟩) = .ok q := by
  induction items with
  | nil =>
    intro n qs _ i h
    exact absurd h (by simp)
  | cons p rest ih =>
    intro n qs hok i h
    unfold validateAllEvents at hok
    cases he : validateEvent n p with
    | error e =>
      rw [he] at hok
      simp at hok
    | ok q =>
      rw [he] at hok
      cases hr : validateAllEvents (n + 1) rest with
      | error e =>
        rw [hr] at hok
        simp at hok
      | ok qs2 =>
        cases i with
        | zero => exact ⟨q, by simpa using he⟩
        | succ i2 =>
          have h2 : i2 < rest.length := by simpa using h
          have hrec := ih (n + 1) qs2 hr i2 h2
          rw [show n + (i2 + 1) = (n + 1) + i2 by omega]
          simpa using hrec

/-- The validation loop surfaces the error of the first failing item
(auxiliary induction on the item list). -/
theorem validateAllEvents_first_error (items : List Payload) : ∀ (n i : Nat)
    (h : i < items.length) (e : ErrorResponse),
    (∀ j (hj : j < items.length), j < i →
      (validateEvent (n + j) (items.get ⟨j, hj⟩)).isOk = true) →
    validateEvent (n + i) (items.get ⟨i, h⟩) = .error e →
    validateAllEvents n items = .error e := by
  induction items with
  | nil =>
    intro n i h
    exact absurd h (by simp)
  | cons p rest ih =>
    intro n i h e hprev herr
    cases i with
    | zero =>
      have h0 : validateEvent n p = .error e := by simpa using herr
      unfold validateAllEvents
      rw [h0]
    | succ i2 =>
      have h0 : (validateEvent n p).isOk = true := by
        have := hprev 0 (by simp) (Nat.succ_pos i2)
        simpa using this
      obtain ⟨q, hq⟩ : ∃ q, validateEvent n p = .ok q := by
        cases hv : validateEvent n p with
        | ok q => exact ⟨q, rfl⟩
        | error e2 =>
          rw [hv] at h0
          simp [Except.isOk, Except.toBool] at h0
      have h2 : i2 < rest.length := by simpa using h
      have hrec : validateAllEvents (n + 1) rest = .error e := by
        apply ih (n + 1) i2 h2 e
        · intro j hj hlt
          have := hprev (j + 1) (by simpa using Nat.succ_lt_succ hj) (Nat.succ_lt_succ hlt)
          rw [show n + (j + 1) = (n + 1) + j by omega] at this
          simpa using this
        · rw [show (n + 1) + i2 = n + (i2 + 1) by omega]
          simpa using herr
      unfold validateAllEvents
      rw [hq, hrec]

/-- Every error of the per-item date check is either the modelled crash
envelope or an indexed validation error. -/
theorem validateEventDate_error_shape (i : Nat) (p : Payload) (e : ErrorResponse) :
    validateEventDate i p = .error e →
    e = internalErrorEnvelope ∨ ∃ r, e = eventValidationError i r := by
  intro h
  unfold validateEventDate at h
  split at h
  · split at h
    · simp at h
    · right
      rw [Except.error.injEq] at h
      exact ⟨_, h.symm⟩
  · left
    rw [Except.error.injEq] at h
    exact h.symm

/-- Every error of the per-item type check is either the modelled crash
envelope or an indexed validation error. -/
theorem validateEventType_error_shape (i : Nat) (p : Payload) (e : ErrorResponse) :
    validateEventType i p = .error e →
    e = internalErrorEnvelope ∨ ∃ r, e = eventValidationError i r := by
  intro h
  unfold validateEventType at h
  split at h
  · exact validateEventDate_error_shape i p e h
  · split at h
    · right
      rw [Except.error.injEq] at h
      exact ⟨_, h.symm⟩
    · exact validateEventDate_error_shape i _ e h
  · left
    rw [Except.error.injEq] at h
    exact h.symm

/-- Every error of the per-item validation is either the modelled crash
envelope or an indexed validation error. -/
theorem validateEvent_error_shape (i : Nat) (p : Payload) (e : ErrorResponse) :
    validateEvent i p = .error e →
    e = internalErrorEnvelope ∨ ∃ r, e = eventValidationError i r := by
  intro h
  unfold validateEvent at h
  split at h
  · right
    rw [Except.error.injEq] at h
    exact ⟨_, h.symm⟩
  · split at h
    · right
      rw [Except.error.injEq] at h
      exact ⟨_, h.symm⟩
    · split at h
      · right
        rw [Except.error.injEq] at h
        exact ⟨_, h.symm⟩
      · split at h
        · split at h
          · right
            rw [Except.error.injEq] at h
            exact ⟨_, h.symm⟩
          · exact validateEventType_error_shape i _ e h
        · left
          rw [Except.error.injEq] at h
          exact h.symm

/-- Dict lookup distributes over list append (first match wins). -/
theorem lookupKey_append (p q : Payload) (k : String) :
    lookupKey (p ++ q) k = match lookupKey p k with
      | some v => some v
      | none => lookupKey q k := by
  induction p with
  | nil => simp [lookupKey]
  | cons kv rest ih =>
    obtain ⟨a, b⟩ := kv
    by_cases h : a = k
    · simp [lookupKey, h]
    · simp [lookupKey, h, ih]

/-- Dict lookup after `pop`: the popped key is gone, others unchanged. -/
theorem lookupKey_removeKey (p : Payload) (k1 k : String) :
    lookupKey (removeKey p k1) k = if k = k1 then none else lookupKey p k := by
  induction p with
  | nil => simp [lookupKey, removeKey]
  | cons kv rest ih =>
    obtain ⟨a, b⟩ := kv
    by_cases h1 : a = k1
    · have hfilter : removeKey ((a, b) :: rest) k1 = removeKey rest k1 := by
        simp [removeKey, List.filter_cons, h1]
      rw [hfilter, ih]
      by_cases h2 : k = k1
      · simp [h2]
      · have hak : ¬ a = k := fun hh => h2 (hh ▸ h1)
        simp [h2, lookupKey, hak]
    · have hfilter : removeKey ((a, b) :: rest) k1 = (a, b) :: removeKey rest k1 := by
        simp [removeKey, List.filter_cons, h1]
      rw [hfilter]
      by_cases h2 : a = k
      · have hk : ¬ k = k1 := fun hh => h1 (by rw [h2, hh])
        simp [lookupKey, h2, hk]
      · simp only [lookupKey, beq_iff_eq, h2, if_false, ih]

/-- Lookup of the updated key after an in-place dict update. -/
theorem lookupKey_mapSet_self (k : String) (v : JValue) (p : Payload) :
    containsKey p k = true →
    lookupKey (p.map fun kv => if kv.1 == k then (k, v) else kv) k = some v := by
  induction p with
  | nil => intro hc; simp [containsKey, lookupKey] at hc
  | cons kv rest ih =>
    obtain ⟨a, b⟩ := kv
    intro hc
    simp only [List.map_cons]
    by_cases h : a = k
    · rw [if_pos (by simp [h])]
      simp [lookupKey]
    · rw [if_neg (by simp [h])]
      have hc2 : containsKey rest k = true := by
        simpa [containsKey, lookupKey, h] using hc
      simp [lookupKey, h]
      simpa using ih hc2

/-- An in-place dict update leaves all other keys unchanged. -/
theorem lookupKey_mapSet_ne (k2 : String) (v : JValue) (k : String) (h : k ≠ k2)
    (p : Payload) :
    lookupKey (p.map fun kv => if kv.1 == k2 then (k2, v) else kv) k = lookupKey p k := by
  induction p with
  | nil => simp
  | cons kv rest ih =>
    obtain ⟨a, b⟩ := kv
    simp only [List.map_cons]
    by_cases h2 : a = k2
    · rw [if_pos (by simp [h2])]
      have hak : ¬ a = k := fun hh => h (by rw [← hh, h2])
      simp [lookupKey, Ne.symm h, hak]
      simpa using ih
    · rw [if_neg (by simp [h2])]
      by_cases h3 : a = k
      · simp [lookupKey, h3]
      · simp [lookupKey, h3]
        simpa using ih

/-- Lookup of the assigned key after a dict assignment. -/
theorem lookupKey_setKey_self (p : Payload) (k : String) (v : JValue) :
    lookupKey (setKey p k v) k = some v := by
  unfold setKey
  split
  · next hc => exact lookupKey_mapSet_self k v p hc
  · next hc =>
    rw [lookupKey_append]
    have : lookupKey p k = none := by
      by_cases hl : lookupKey p k = none
      · exact hl
      · exact absurd (by simp [containsKey, Option.isSome_iff_ne_none, hl]) hc
    simp [this, lookupKey]

/-- A dict assignment leaves all other keys unchanged. -/
theorem lookupKey_setKey_ne (p : Payload) (k2 : String) (v : JValue) (k : String)
    (h : k ≠ k2) : lookupKey (setKey p k2 v) k = lookupKey p k := by
  unfold setKey
  split
  · exact lookupKey_mapSet_ne k2 v k h p
  · rw [lookupKey_append]
    have : lookupKey [(k2, v)] k = none := by
      simp [lookupKey, Ne.symm h]
    rw [this]
    cases lookupKey p k <;> rfl

/-- One alias-loop iteration fires exactly when the wrong name is
present and the correct name absent. -/
theorem applyAliasStep_fires (p : Payload) (wc : String × String)
    (h1 : containsKey p wc.1 = true) (h2 : containsKey p wc.2 = false) :
    applyAliasStep p wc =
      setKey (removeKey p wc.1) wc.2 ((lookupKey p wc.1).getD .jnull) := by
  unfold applyAliasStep
  simp [h1, h2]

/-- One alias-loop iteration is a no-op when the wrong name is absent or
the correct name already present. -/
theorem applyAliasStep_skips (p : Payload) (wc : String × String)
    (h : containsKey p wc.1 = false ∨ containsKey p wc.2 = true) :
    applyAliasStep p wc = p := by
  unfold applyAliasStep
  rcases h with h | h <;> simp [h]

/-- Generic conflict invariant of the alias loop: when a deprecated key
and its canonical key are both present, and the alias list never targets
the deprecated key nor uses the canonical key as an alias key, the
deprecated key survives the whole loop and the canonical value is
untouched. -/
theorem foldl_alias_conflict (w c : String) (L : List (String × String)) :
    (∀ wc ∈ L, wc.1 = w → wc.2 = c) →
    (∀ wc ∈ L, wc.2 ≠ w) →
    (∀ wc ∈ L, wc.1 ≠ c) →
    ∀ p : Payload, containsKey p w = true → containsKey p c = true →
    containsKey (L.foldl applyAliasStep p) w = true ∧
    lookupKey (L.foldl applyAliasStep p) c = lookupKey p c := by
  induction L with
  | nil =>
    intro _ _ _ p hw hc
    exact ⟨hw, rfl⟩
  | cons hd tl ih =>
    intro h1 h2 h3 p hw hc
    have h1t : ∀ wc ∈ tl, wc.1 = w → wc.2 = c :=
      fun wc hm => h1 wc (List.mem_cons_of_mem hd hm)
    have h2t : ∀ wc ∈ tl, wc.2 ≠ w :=
      fun wc hm => h2 wc (List.mem_cons_of_mem hd hm)
    have h3t : ∀ wc ∈ tl, wc.1 ≠ c :=
      fun wc hm => h3 wc (List.mem_cons_of_mem hd hm)
    simp only [List.foldl_cons]
    by_cases hfw : containsKey p hd.1 = true
    · by_cases hfc : containsKey p hd.2 = true
      · rw [applyAliasStep_skips p hd (Or.inr hfc)]
        exact ih h1t h2t h3t p hw hc
      · have hfc2 : containsKey p hd.2 = false := by simpa using hfc
        have hne1 : hd.1 ≠ w := by
          intro he
          have hcc := h1 hd (List.mem_cons_self hd tl) he
          rw [hcc] at hfc2
          rw [hc] at hfc2
          exact absurd hfc2 (by simp)
        have hne2 : hd.2 ≠ w := h2 hd (List.mem_cons_self hd tl)
        have hne3 : hd.1 ≠ c := h3 hd (List.mem_cons_self hd tl)
        have hne4 : hd.2 ≠ c := by
          intro he
          rw [he, hc] at hfc2
          exact absurd hfc2 (by simp)
        rw [applyAliasStep_fires p hd hfw hfc2]
        have hqw : lookupKey (setKey (removeKey p hd.1) hd.2
            ((lookupKey p hd.1).getD .jnull)) w = lookupKey p w := by
          rw [lookupKey_setKey_ne _ _ _ _ (Ne.symm hne2), lookupKey_removeKey,
            if_neg (Ne.symm hne1)]
        have hqc : lookupKey (setKey (removeKey p hd.1) hd.2
            ((lookupKey p hd.1).getD .jnull)) c = lookupKey p c := by
          rw [lookupKey_setKey_ne _ _ _ _ (Ne.symm hne4), lookupKey_removeKey,
            if_neg (Ne.symm hne3)]
        obtain ⟨ihw, ihc⟩ := ih h1t h2t h3t _
          (by unfold containsKey; rw [hqw]; exact hw)
          (by unfold containsKey; rw [hqc]; exact hc)
        exact ⟨ihw, by rw [ihc, hqc]⟩
    · have hfw2 : containsKey p hd.1 = false := by simpa using hfw
      rw [applyAliasStep_skips p hd (Or.inl hfw2)]
      exact ih h1t h2t h3t p hw hc

/-- Generic preservation invariant of the alias loop: once the canonical
key holds a value and the deprecated key is gone, the rest of the loop
changes neither (the canonical key is never an alias key, the deprecated
key never a target). -/
theorem foldl_alias_preserves (w c : String) (v : JValue) (L : List (String × String)) :
    (∀ wc ∈ L, wc.1 ≠ c) →
    (∀ wc ∈ L, wc.2 ≠ w) →
    ∀ p : Payload, lookupKey p c = some v → containsKey p w = false →
    lookupKey (L.foldl applyAliasStep p) c = some v ∧
    containsKey (L.foldl applyAliasStep p) w = false := by
  induction L with
  | nil =>
    intro _ _ p hc hw
    exact ⟨hc, hw⟩
  | cons hd tl ih =>
    intro h3 h2 p hc hw
    have h3t : ∀ wc ∈ tl, wc.1 ≠ c :=
      fun wc hm => h3 wc (List.mem_cons_of_mem hd hm)
    have h2t : ∀ wc ∈ tl, wc.2 ≠ w :=
      fun wc hm => h2 wc (List.mem_cons_of_mem hd hm)
    simp only [List.foldl_cons]
    by_cases hfw : containsKey p hd.1 = true
    · by_cases hfc : containsKey p hd.2 = true
      · rw [applyAliasStep_skips p hd (Or.inr hfc)]
        exact ih h3t h2t p hc hw
      · have hfc2 : containsKey p hd.2 = false := by simpa using hfc
        have hne4 : hd.2 ≠ c := by
          intro he
          rw [he] at hfc2
          unfold containsKey at hfc2
          rw [hc] at hfc2
          exact absurd hfc2 (by simp)
        have hne3 : hd.1 ≠ c := h3 hd (List.mem_cons_self hd tl)
        have hne2 : hd.2 ≠ w := h2 hd (List.mem_cons_self hd tl)
        rw [applyAliasStep_fires p hd hfw hfc2]
        have hqc : lookupKey (setKey (removeKey p hd.1) hd.2
            ((lookupKey p hd.1).getD .jnull)) c = some v := by
          rw [lookupKey_setKey_ne _ _ _ _ (Ne.symm hne4), lookupKey_removeKey,
            if_neg (Ne.symm hne3), hc]
        have hqw : containsKey (setKey (removeKey p hd.1) hd.2
            ((lookupKey p hd.1).getD .jnull)) w = false := by
          unfold containsKey
          rw [lookupKey_setKey_ne _ _ _ _ (Ne.symm hne2), lookupKey_removeKey]
          by_cases hww : w = hd.1
          · rw [if_pos hww]
            rfl
          · rw [if_neg hww]
            exact hw
        exact ih h3t h2t _ hqc hqw
    · have hfw2 : containsKey p hd.1 = false := by simpa using hfw
      rw [applyAliasStep_skips p hd (Or.inl hfw2)]
      exact ih h3t h2t p hc hw

/-- Generic rename behavior of the alias loop: a deprecated key whose
canonical key is absent and with no other same-target deprecated key
present is renamed, and the rename survives the rest of the loop. -/
theorem foldl_alias_renames (w c : String) (v : JValue) (L : List (String × String)) :
    (∀ wc ∈ L, wc.1 = w → wc.2 = c) →
    (∀ wc ∈ L, wc.2 ≠ w) →
    (∀ wc ∈ L, wc.1 ≠ c) →
    (∀ wc ∈ L, ∀ wc2 ∈ L, wc.2 ≠ wc2.1) →
    (w, c) ∈ L →
    ∀ p : Payload, lookupKey p w = some v → containsKey p c = false →
    (∀ wc ∈ L, wc.2 = c → wc.1 ≠ w → containsKey p wc.1 = false) →
    lookupKey (L.foldl applyAliasStep p) c = some v ∧
    containsKey (L.foldl applyAliasStep p) w = false := by
  induction L with
  | nil =>
    intro _ _ _ _ hmem
    exact absurd hmem (List.not_mem_nil (w, c))
  | cons hd tl ih =>
    intro h1 h2 h3 h4 hmem p hpw hpc hsib
    have h1t : ∀ wc ∈ tl, wc.1 = w → wc.2 = c :=
      fun wc hm => h1 wc (List.mem_cons_of_mem hd hm)
    have h2t : ∀ wc ∈ tl, wc.2 ≠ w :=
      fun wc hm => h2 wc (List.mem_cons_of_mem hd hm)
    have h3t : ∀ wc ∈ tl, wc.1 ≠ c :=
      fun wc hm => h3 wc (List.mem_cons_of_mem hd hm)
    have h4t : ∀ wc ∈ tl, ∀ wc2 ∈ tl, wc.2 ≠ wc2.1 :=
      fun wc hm wc2 hm2 =>
        h4 wc (List.mem_cons_of_mem hd hm) wc2 (List.mem_cons_of_mem hd hm2)
    simp only [List.foldl_cons]
    by_cases hhd : hd.1 = w
    · have hhd2 : hd.2 = c := h1 hd (List.mem_cons_self hd tl) hhd
      have hwc : w ≠ c := hhd ▸ hhd2 ▸ h3 hd (List.mem_cons_self hd tl)
      have hfw : containsKey p hd.1 = true := by
        unfold containsKey
        rw [hhd, hpw]
        rfl
      have hfc : containsKey p hd.2 = false := by rw [hhd2]; exact hpc
      rw [applyAliasStep_fires p hd hfw hfc, hhd, hhd2]
      have hqc : lookupKey (setKey (removeKey p w) c
          ((lookupKey p w).getD .jnull)) c = some v := by
        rw [lookupKey_setKey_self, hpw]
        rfl
      have hqw : containsKey (setKey (removeKey p w) c
          ((lookupKey p w).getD .jnull)) w = false := by
        unfold containsKey
        rw [lookupKey_setKey_ne _ _ _ _ hwc, lookupKey_removeKey, if_pos rfl]
        rfl
      exact foldl_alias_preserves w c v tl h3t h2t _ hqc hqw
    · by_cases hfw : containsKey p hd.1 = true
      · by_cases hfc : containsKey p hd.2 = true
        · rw [applyAliasStep_skips p hd (Or.inr hfc)]
          refine ih h1t h2t h3t h4t ?_ p hpw hpc ?_
          · rcases List.mem_cons.mp hmem with he | hm
            · exact absurd (by rw [← he] : hd.1 = w) hhd
            · exact hm
          · exact fun wc hm => hsib wc (List.mem_cons_of_mem hd hm)
        · have hfc2 : containsKey p hd.2 = false := by simpa using hfc
          have hne4 : hd.2 ≠ c := by
            intro he
            have := hsib hd (List.mem_cons_self hd tl) he hhd
            rw [this] at hfw
            exact absurd hfw (by simp)
          have hne3 : hd.1 ≠ c := h3 hd (List.mem_cons_self hd tl)
          have hne2 : hd.2 ≠ w := h2 hd (List.mem_cons_self hd tl)
          rw [applyAliasStep_fires p hd hfw hfc2]
          have hqw : lookupKey (setKey (removeKey p hd.1) hd.2
              ((lookupKey p hd.1).getD .jnull)) w = some v := by
            rw [lookupKey_setKey_ne _ _ _ _ (Ne.symm hne2), lookupKey_removeKey,
              if_neg (fun hh => hhd hh.symm), hpw]
          have hqc : containsKey (setKey (removeKey p hd.1) hd.2
              ((lookupKey p hd.1).getD .jnull)) c = false := by
            unfold containsKey
            rw [lookupKey_setKey_ne _ _ _ _ (Ne.symm hne4), lookupKey_removeKey,
              if_neg (Ne.symm hne3)]
            exact hpc
          refine ih h1t h2t h3t h4t ?_ _ hqw hqc ?_
          · rcases List.mem_cons.mp hmem with he | hm
            · exact absurd (by rw [← he] : hd.1 = w) hhd
            · exact hm
          · intro wc hm hwc2 hwc1
            have hs := hsib wc (List.mem_cons_of_mem hd hm) hwc2 hwc1
            unfold containsKey
            have hnb : wc.1 ≠ hd.2 :=
              Ne.symm (h4 hd (List.mem_cons_self hd tl) wc (List.mem_cons_of_mem hd hm))
            rw [lookupKey_setKey_ne _ _ _ _ hnb, lookupKey_removeKey]
            by_cases hww : wc.1 = hd.1
            · rw [if_pos hww]
              rfl
            · rw [if_neg hww]
              exact hs
      · have hfw2 : containsKey p hd.1 = false := by simpa using hfw
        rw [applyAliasStep_skips p hd (Or.inl hfw2)]
        refine ih h1t h2t h3t h4t ?_ p hpw hpc ?_
        · rcases List.mem_cons.mp hmem with he | hm
          · exact absurd (by rw [← he] : hd.1 = w) hhd
          · exact hm
        · exact fun wc hm => hsib wc (List.mem_cons_of_mem hd hm)

/-- In `_FIELD_ALIASES`, no canonical target is also an alias key. -/
theorem alias_targets_not_keys :
    ∀ a ∈ _FIELD_ALIASES, ∀ b ∈ _FIELD_ALIASES, a.2 ≠ b.1 := by
  decide

/-- The alias keys of `_FIELD_ALIASES` are distinct: equal keys map to
equal targets. -/
theorem alias_keys_functional :
    ∀ a ∈ _FIELD_ALIASES, ∀ b ∈ _FIELD_ALIASES, a.1 = b.1 → a.2 = b.2 := by
  decide

/-- C1 counterexample: on the payload containing both the deprecated key
`duration` and the canonical key `moving_time`, the alias-correction loop
of `bulk_create_events` leaves the payload completely unchanged — in
particular `duration` is still present afterwards, contradicting the
claim that the deprecated key is dropped when both keys are supplied.
Moreover, on a payload with `duration` 1 and `time` 2 the second
deprecated key `time` also survives (its canonical target `moving_time`
is created mid-loop by the `duration` rename), so the rename half of the
claim needs a no-same-target-sibling condition. -/
theorem field_alias_conflict_keeps_deprecated_key :
    (applyFieldAliases [("duration", JValue.jint 3600), ("moving_time", JValue.jint 1800)] =
      [("duration", JValue.jint 3600), ("moving_time", JValue.jint 1800)] ∧
     containsKey (applyFieldAliases
      [("duration", JValue.jint 3600), ("moving_time", JValue.jint 1800)]) "duration" = true ∧
     lookupKey (applyFieldAliases
      [("duration", JValue.jint 3600), ("moving_time", JValue.jint 1800)]) "moving_time" =
      some (JValue.jint 1800)) ∧
    (applyFieldAliases [("duration", JValue.jint 1), ("time", JValue.jint 2)] =
      [("time", JValue.jint 2), ("moving_time", JValue.jint 1)] ∧
     containsKey (applyFieldAliases
      [("duration", JValue.jint 1), ("time", JValue.jint 2)]) "time" = true) :=
  ⟨⟨rfl, rfl, rfl⟩, rfl, rfl⟩

/-- C1 (amended): for every payload and every alias pair of the Field
Alias Map: if the deprecated key is present, the canonical key absent,
and no other deprecated key with the same canonical target is present,
then after the correction loop the canonical key holds the deprecated
key's value and the deprecated key is removed (so a payload whose only
key is `duration` ends with only `moving_time`); and if both the
deprecated and the canonical key are present, the deprecated key
survives the loop and the canonical key keeps its own value — canonical
wins, but the deprecated key is not dropped. -/
theorem field_alias_correction_amended :
    (∀ (p : Payload) (wc : String × String), wc ∈ _FIELD_ALIASES →
      containsKey p wc.1 = true → containsKey p wc.2 = true →
      containsKey (applyFieldAliases p) wc.1 = true ∧
      lookupKey (applyFieldAliases p) wc.2 = lookupKey p wc.2) ∧
    (∀ (p : Payload) (wc : String × String) (v : JValue), wc ∈ _FIELD_ALIASES →
      lookupKey p wc.1 = some v → containsKey p wc.2 = false →
      (∀ wc2 ∈ _FIELD_ALIASES, wc2.2 = wc.2 → wc2.1 ≠ wc.1 →
        containsKey p wc2.1 = false) →
      lookupKey (applyFieldAliases p) wc.2 = some v ∧
      containsKey (applyFieldAliases p) wc.1 = false) := by
  constructor
  · intro p wc hmem hw hc
    exact foldl_alias_conflict wc.1 wc.2 _FIELD_ALIASES
      (fun a ha he => alias_keys_functional a ha wc hmem he)
      (fun a ha => alias_targets_not_keys a ha wc hmem)
      (fun a ha => Ne.symm (alias_targets_not_keys wc hmem a ha))
      p hw hc
  · intro p wc v hmem hw hc hsib
    exact foldl_alias_renames wc.1 wc.2 v _FIELD_ALIASES
      (fun a ha he => alias_keys_functional a ha wc hmem he)
      (fun a ha => alias_targets_not_keys a ha wc hmem)
      (fun a ha => Ne.symm (alias_targets_not_keys wc hmem a ha))
      (fun a ha b hb => alias_targets_not_keys a ha b hb)
      hmem p hw hc hsib

/-- C1 witness: the rename half applied at the claim's example payload
(`duration` alone becomes `moving_time`) and the conflict half applied at
the two-key payload (`duration` survives, `moving_time` unchanged). -/
theorem field_alias_correction_amended_witness :
    (lookupKey (applyFieldAliases [("duration", JValue.jint 3600)]) "moving_time" =
       some (JValue.jint 3600) ∧
     containsKey (applyFieldAliases [("duration", JValue.jint 3600)]) "duration" = false) ∧
    (containsKey (applyFieldAliases
        [("duration", JValue.jint 3600), ("moving_time", JValue.jint 1800)]) "duration" = true ∧
     lookupKey (applyFieldAliases
        [("duration", JValue.jint 3600), ("moving_time", JValue.jint 1800)]) "moving_time" =
       lookupKey [("duration", JValue.jint 3600), ("moving_time", JValue.jint 1800)]
         "moving_time") :=
  ⟨field_alias_correction_amended.2 [("duration", JValue.jint 3600)]
     ("duration", "moving_time") (JValue.jint 3600) (by decide) rfl rfl (by decide),
   field_alias_correction_amended.1
     [("duration", JValue.jint 3600), ("moving_time", JValue.jint 1800)]
     ("duration", "moving_time") (by decide) rfl rfl⟩

/-- C2 counterexample: the claim says a string whose first 10 characters
form a valid date but whose remainder is an invalid time (such as
`2025-12-08T99:99`) is rejected; the code instead truncates it to the
bare date and returns midnight. -/
theorem parse_start_date_truncates_invalid_time :
    parse_start_date_local "2025-12-08T99:99" = .ok "2025-12-08T00:00:00" := rfl

/-- C2 (amended): `parse_start_date_local` raises the `ValueError` naming
the offending string and the accepted forms only when no datetime format
matched AND the first 10 characters do not parse as a bare date; when the
first 10 characters do form a valid date, the input is silently truncated
to that date (at midnight) even if the remainder is garbage or an invalid
time; and a string matching one of the two `T` formats is returned
canonicalized. -/
theorem parse_start_date_amended :
    (∀ s, tryTFormats s = none →
      strptimeDate (String.mk (s.toList.take 10)) = none →
      parse_start_date_local s = .error (invalidDateMessage s)) ∧
    (∀ s dt, tryTFormats s = none →
      strptimeDate (String.mk (s.toList.take 10)) = some dt →
      parse_start_date_local s = .ok (formatDateTime dt)) ∧
    (∀ s dt, tryTFormats s = some dt →
      parse_start_date_local s = .ok (formatDateTime dt)) := by
  refine ⟨?_, ?_, ?_⟩
  · intro s h1 h2
    unfold parse_start_date_local
    rw [h1, h2]
  · intro s dt h1 h2
    unfold parse_start_date_local
    rw [h1, h2]
  · intro s dt h1
    unfold parse_start_date_local
    rw [h1]

/-- C2 witness: the amended statement applied at a fully invalid string,
at a truncated string, and at a valid datetime string. -/
theorem parse_start_date_amended_witness :
    parse_start_date_local "not-a-date" = .error (invalidDateMessage "not-a-date") ∧
    parse_start_date_local "2025-12-08garbage" = .ok "2025-12-08T00:00:00" ∧
    parse_start_date_local "2025-12-08T15:00" = .ok "2025-12-08T15:00:00" :=
  ⟨parse_start_date_amended.1 "not-a-date" (by rfl) (by rfl),
   parse_start_date_amended.2.1 "2025-12-08garbage" ⟨2025, 12, 8, 0, 0, 0⟩ (by rfl) (by rfl),
   parse_start_date_amended.2.2 "2025-12-08T15:00" ⟨2025, 12, 8, 15, 0, 0⟩ (by rfl)⟩

/-- C5: `_normalize_event_type` returns the correctly-cased canonical
value on a case-insensitive exact match (so `ride` gives `Ride` and
`virtualride` gives `VirtualRide`); otherwise it resolves the
bidirectional-substring candidate set, succeeding on a unique candidate,
failing as ambiguous (listing all candidates) on two or more, and failing
as unknown (listing example types) on none. -/
theorem normalize_event_type_correct :
    (_normalize_event_type "ride" = .ok "Ride" ∧
     _normalize_event_type "virtualride" = .ok "VirtualRide") ∧
    (∀ s t, _VALID_TYPES.find? (fun c => pyLower c == pyLower s) = some t →
      _normalize_event_type s = .ok t) ∧
    (∀ s, _VALID_TYPES.find? (fun c => pyLower c == pyLower s) = none →
      ((∀ m, typeCandidates s = [m] → _normalize_event_type s = .ok m) ∧
       (∀ a b rest, typeCandidates s = a :: b :: rest →
         _normalize_event_type s = .error (ambiguousTypeMessage s (a :: b :: rest))) ∧
       (typeCandidates s = [] → _normalize_event_type s = .error (unknownTypeMessage s)))) := by
  refine ⟨⟨rfl, rfl⟩, ?_, ?_⟩
  · intro s t h
    unfold _normalize_event_type
    rw [h]
  · intro s h
    refine ⟨?_, ?_, ?_⟩
    · intro m hm
      unfold _normalize_event_type
      rw [h, hm]
    · intro a b rest hm
      unfold _normalize_event_type
      rw [h, hm]
    · intro hm
      unfold _normalize_event_type
      rw [h, hm]

/-- C5 witness: the exact-match, unique-fuzzy-match, ambiguous and
unknown branches each applied at a concrete input. -/
theorem normalize_event_type_correct_witness :
    _normalize_event_type "RUN" = .ok "Run" ∧
    _normalize_event_type "trail" = .ok "TrailRun" ∧
    _normalize_event_type "ski" = .error (ambiguousTypeMessage "ski"
      ["AlpineSki", "BackcountrySki", "NordicSki", "RollerSki"]) ∧
    _normalize_event_type "zzz" = .error (unknownTypeMessage "zzz") :=
  ⟨normalize_event_type_correct.2.1 "RUN" "Run" (by rfl),
   (normalize_event_type_correct.2.2 "trail" (by rfl)).1 "TrailRun" (by rfl),
   (normalize_event_type_correct.2.2 "ski" (by rfl)).2.1 "AlpineSki" "BackcountrySki"
     ["NordicSki", "RollerSki"] (by rfl),
   (normalize_event_type_correct.2.2 "zzz" (by rfl)).2.2 (by rfl)⟩

/-- C7: `_normalize_category` maps each of the five alias keys to its
documented canonical target, returns the upper-cased input whenever that
upper-casing is one of the 14 canonical categories, and fails on every
other string with the message enumerating the canonical set and the five
alias mappings. -/
theorem normalize_category_correct :
    (_normalize_category "RACE" = .ok "RACE_A" ∧
     _normalize_category "GOAL" = .ok "TARGET" ∧
     _normalize_category "REST" = .ok "HOLIDAY" ∧
     _normalize_category "INJURY" = .ok "INJURED" ∧
     _normalize_category "FTP" = .ok "SET_EFTP") ∧
    (∀ s : String, pyUpper s ∈ VALID_CATEGORIES → _normalize_category s = .ok (pyUpper s)) ∧
    (∀ s : String, lookupStr _CATEGORY_ALIASES (pyUpper s) = none →
      VALID_CATEGORIES.contains (pyUpper s) = false →
      _normalize_category s = .error (invalidCategoryMessage s)) := by
  refine ⟨⟨rfl, rfl, rfl, rfl, rfl⟩, ?_, ?_⟩
  · intro s h
    simp only [VALID_CATEGORIES, List.mem_cons, List.not_mem_nil, or_false] at h
    rcases h with h|h|h|h|h|h|h|h|h|h|h|h|h|h <;>
      (unfold _normalize_category; rw [h]; rfl)
  · intro s h1 h2
    unfold _normalize_category
    rw [h1, h2]
    simp

/-- C7 witness: a mixed-case canonical category and an unknown category
applied through the theorem. -/
theorem normalize_category_correct_witness :
    _normalize_category "Note" = .ok "NOTE" ∧
    _normalize_category "hero" = .error (invalidCategoryMessage "hero") :=
  ⟨normalize_category_correct.2.1 "Note" (by decide),
   normalize_category_correct.2.2 "hero" (by rfl) (by rfl)⟩

/-- C10: in `create_event`'s payload construction, each optional numeric
argument is included only when truthy — passing zero for
`duration_seconds`, `distance_meters` or `training_load` produces exactly
the payload obtained by omitting the argument, and the corresponding key
(`moving_time`, `distance`, `icu_training_load`) is absent. -/
theorem create_event_omits_zero_optional_fields :
    (∀ sdl nm cat d t dist load,
      buildCreateEventData sdl nm cat d t (some 0) dist load =
      buildCreateEventData sdl nm cat d t none dist load) ∧
    (∀ sdl nm cat d t dur load,
      buildCreateEventData sdl nm cat d t dur (some 0) load =
      buildCreateEventData sdl nm cat d t dur none load) ∧
    (∀ sdl nm cat d t dur dist,
      buildCreateEventData sdl nm cat d t dur dist (some 0) =
      buildCreateEventData sdl nm cat d t dur dist none) ∧
    (containsKey (buildCreateEventData "2026-03-01T00:00:00" "n" "WORKOUT"
        none none (some 0) (some 0) (some 0)) "moving_time" = false ∧
     containsKey (buildCreateEventData "2026-03-01T00:00:00" "n" "WORKOUT"
        none none (some 0) (some 0) (some 0)) "distance" = false ∧
     containsKey (buildCreateEventData "2026-03-01T00:00:00" "n" "WORKOUT"
        none none (some 0) (some 0) (some 0)) "icu_training_load" = false) := by
  refine ⟨?_, ?_, ?_, rfl, rfl, rfl⟩ <;>
    (intros; simp [buildCreateEventData, optIntField, optFloatField])

/-- C10 witness: the three zero-argument equalities applied at one
concrete call. -/
theorem create_event_omits_zero_optional_fields_witness :
    buildCreateEventData "2026-03-01T00:00:00" "Easy Ride" "WORKOUT"
      (some "desc") (some "Ride") (some 0) (some 0) (some 0) =
    buildCreateEventData "2026-03-01T00:00:00" "Easy Ride" "WORKOUT"
      (some "desc") (some "Ride") none none none := by
  rw [create_event_omits_zero_optional_fields.1,
    create_event_omits_zero_optional_fields.2.1,
    create_event_omits_zero_optional_fields.2.2.1]

/-- C3 counterexample: for a rejected request whose payload is a JSON
array (the short-circuit non-object branch), the diagnostic result's
error type is `validation_error`, not the `api_validation_error` the
claim asserts for every rejected request. -/
theorem diagnose_nonobject_not_api_validation_error :
    (_diagnose_event_error (ICUAPIError.mk 400 "Bad request" none
      (some (JValue.jarr [JValue.jint 1])))).error_type ≠ "api_validation_error" := by
  decide

/-- C3 (amended): for every rejected request whose (falsy-coerced)
payload is a dict, the diagnostic result carries error type
`api_validation_error` and a top-level message stating how many issues
were found; the short-circuit branch for a non-dict payload instead
returns immediately the fixed `validation_error` envelope with the single
dedicated payload-must-be-an-object message and its three-suggestion
guidance, performing no field-level checks. -/
theorem diagnose_error_classification_amended :
    (∀ e p, coercedPayload e = .jobj p →
      (_diagnose_event_error e).error_type = "api_validation_error" ∧
      (_diagnose_event_error e).message =
        "Intervals.icu API rejected the event creation request. " ++
        "Found " ++ toString (diagnoseSuggestions e p).length ++ " issue(s) to fix.") ∧
    (∀ e, (∀ q, coercedPayload e ≠ .jobj q) →
      _diagnose_event_error e =
        build_error_response (nonObjectMessage (coercedPayload e)) "validation_error"
          nonObjectSuggestions) := by
  constructor
  · intro e p h
    unfold _diagnose_event_error
    rw [h]
    exact ⟨rfl, rfl⟩
  · intro e h
    unfold _diagnose_event_error
    cases hc : coercedPayload e with
    | jobj q => exact absurd hc (h q)
    | jnull => rfl
    | jbool b => rfl
    | jint n => rfl
    | jfloat q => rfl
    | jstr s => rfl
    | jarr l => rfl

/-- C3 witness: the amended classification applied at a dict payload and
at a non-dict (string) payload. -/
theorem diagnose_error_classification_amended_witness :
    (_diagnose_event_error (ICUAPIError.mk 400 "msg" none
      (some (JValue.jobj [("name", JValue.jstr "x")])))).error_type = "api_validation_error" ∧
    _diagnose_event_error (ICUAPIError.mk 400 "Bad request" none
      (some (JValue.jstr "oops"))) =
      build_error_response (nonObjectMessage (JValue.jstr "oops")) "validation_error"
        nonObjectSuggestions :=
  ⟨(diagnose_error_classification_amended.1 (ICUAPIError.mk 400 "msg" none
      (some (JValue.jobj [("name", JValue.jstr "x")]))) [("name", JValue.jstr "x")] rfl).1,
   diagnose_error_classification_amended.2
     (ICUAPIError.mk 400 "Bad request" none (some (JValue.jstr "oops")))
     (by intro q hq; exact absurd hq (by simp [coercedPayload, truthy]))⟩

/-- C4: on the rejected payload with `start_date` and category `RACE` but
no `name`, the diagnostic suggestion list simultaneously contains the
rename suggestion for `start_date`, the `RACE` to `RACE_A` replacement
and the missing-`name` flag; whenever the accumulated field-level checks
find nothing, the engine returns the generic fallback (which quotes the
raw upstream error text and a required/optional field summary); and the
suggestion list of a diagnostic result is never empty. -/
theorem diagnose_accumulates_and_never_empty :
    ((_diagnose_event_error (ICUAPIError.mk 400 "Bad request" (some "resp")
        (some (JValue.jobj [("start_date", JValue.jstr "2025-12-08"),
                            ("category", JValue.jstr "RACE")])))).suggestions.contains
       "Field 'start_date' is not a valid API field. Use 'start_date_local' instead." = true ∧
     (_diagnose_event_error (ICUAPIError.mk 400 "Bad request" (some "resp")
        (some (JValue.jobj [("start_date", JValue.jstr "2025-12-08"),
                            ("category", JValue.jstr "RACE")])))).suggestions.contains
       "Category 'RACE' is invalid. Use 'RACE_A' instead." = true ∧
     (_diagnose_event_error (ICUAPIError.mk 400 "Bad request" (some "resp")
        (some (JValue.jobj [("start_date", JValue.jstr "2025-12-08"),
                            ("category", JValue.jstr "RACE")])))).suggestions.contains
       "Missing required field 'name'. Every event needs a name." = true) ∧
    (∀ e p, coercedPayload e = .jobj p → accumulatedSuggestions p = [] →
      (_diagnose_event_error e).suggestions = fallbackSuggestions e) ∧
    (∀ e, (_diagnose_event_error e).suggestions ≠ []) := by
  refine ⟨⟨by decide, by decide, by decide⟩, ?_, ?_⟩
  · intro e p h1 h2
    unfold _diagnose_event_error
    rw [h1]
    simp [build_error_response, diagnoseSuggestions, h2]
  · intro e
    unfold _diagnose_event_error
    cases hc : coercedPayload e with
    | jobj p =>
      simp only [build_error_response]
      unfold diagnoseSuggestions
      split
      · simp [fallbackSuggestions]
      · next hemp =>
        intro hnil
        rw [hnil] at hemp
        simp at hemp
    | jnull => simp [build_error_response, nonObjectSuggestions]
    | jbool b => simp [build_error_response, nonObjectSuggestions]
    | jint n => simp [build_error_response, nonObjectSuggestions]
    | jfloat q => simp [build_error_response, nonObjectSuggestions]
    | jstr s => simp [build_error_response, nonObjectSuggestions]
    | jarr l => simp [build_error_response, nonObjectSuggestions]

/-- C4 witness: the fallback equality applied at a fully valid payload
(where the accumulated checks find nothing) and the never-empty property
applied at a missing-payload error. -/
theorem diagnose_accumulates_and_never_empty_witness :
    (_diagnose_event_error (ICUAPIError.mk 400 "msg here" (some "raw body")
      (some (JValue.jobj [("start_date_local", JValue.jstr "2026-03-01"),
                          ("name", JValue.jstr "x"),
                          ("category", JValue.jstr "WORKOUT")])))).suggestions =
      fallbackSuggestions (ICUAPIError.mk 400 "msg here" (some "raw body")
        (some (JValue.jobj [("start_date_local", JValue.jstr "2026-03-01"),
                            ("name", JValue.jstr "x"),
                            ("category", JValue.jstr "WORKOUT")]))) ∧
    (_diagnose_event_error (ICUAPIError.mk 400 "x" none none)).suggestions ≠ [] :=
  ⟨diagnose_accumulates_and_never_empty.2.1 (ICUAPIError.mk 400 "msg here" (some "raw body")
      (some (JValue.jobj [("start_date_local", JValue.jstr "2026-03-01"),
                          ("name", JValue.jstr "x"),
                          ("category", JValue.jstr "WORKOUT")])))
      [("start_date_local", JValue.jstr "2026-03-01"),
       ("name", JValue.jstr "x"),
       ("category", JValue.jstr "WORKOUT")] rfl (by decide),
   diagnose_accumulates_and_never_empty.2.2 (ICUAPIError.mk 400 "x" none none)⟩

/-- C9: when `category`, `start_date_local` or `type` is present in the
payload with a value that is the empty string or not a string at all, the
corresponding diagnostic check emits no suggestion — the validity check
is skipped because of the truthy-string guard, and no missing-field flag
fires because the key counts as present. -/
theorem diagnose_skips_nonstring_guarded_fields :
    ∀ (p : Payload) (v : JValue), asTruthyStr v = none →
      ((lookupKey p "category" = some v →
        categorySuggestions p = [] ∧ missingCategorySuggestions p = []) ∧
       (lookupKey p "start_date_local" = some v → dateSuggestions p = []) ∧
       (lookupKey p "type" = some v → typeSuggestions p = [])) := by
  intro p v hv
  refine ⟨fun h => ⟨?_, ?_⟩, fun h => ?_, fun h => ?_⟩
  · unfold categorySuggestions
    rw [h]
    simp [hv]
  · unfold missingCategorySuggestions containsKey
    rw [h]
    rfl
  · unfold dateSuggestions containsKey
    rw [h]
    simp [hv]
  · unfold typeSuggestions
    rw [h]
    simp [hv]

/-- C9 witness: a numeric `category` value and an empty-string
`start_date_local` value, each yielding no suggestion from its check. -/
theorem diagnose_skips_nonstring_guarded_fields_witness :
    categorySuggestions [("start_date_local", JValue.jstr "2026-01-01"),
      ("name", JValue.jstr "x"), ("category", JValue.jint 5)] = [] ∧
    missingCategorySuggestions [("start_date_local", JValue.jstr "2026-01-01"),
      ("name", JValue.jstr "x"), ("category", JValue.jint 5)] = [] ∧
    dateSuggestions [("start_date_local", JValue.jstr ""),
      ("name", JValue.jstr "x"), ("category", JValue.jstr "WORKOUT")] = [] :=
  ⟨((diagnose_skips_nonstring_guarded_fields
      [("start_date_local", JValue.jstr "2026-01-01"),
       ("name", JValue.jstr "x"), ("category", JValue.jint 5)] (JValue.jint 5) rfl).1 rfl).1,
   ((diagnose_skips_nonstring_guarded_fields
      [("start_date_local", JValue.jstr "2026-01-01"),
       ("name", JValue.jstr "x"), ("category", JValue.jint 5)] (JValue.jint 5) rfl).1 rfl).2,
   (diagnose_skips_nonstring_guarded_fields
      [("start_date_local", JValue.jstr ""),
       ("name", JValue.jstr "x"), ("category", JValue.jstr "WORKOUT")]
      (JValue.jstr "") rfl).2.1 rfl⟩

/-- C6: `bulk_create_events` reaches its single network call only when
every item of the batch passed validation and normalization; the first
failing item's error envelope is returned instead of submitting; every
validation failure produced by the per-item checks is a
`validation_error` envelope whose message names the item's index; and an
indexed validation envelope carries exactly the `Event i:` message prefix
and the `validation_error` type. -/
theorem bulk_validates_before_any_network_call :
    (∀ (items : List Payload) (qs : List Payload),
      bulk_create_events items = .submitted qs →
      ∀ i (h : i < items.length), ∃ q, validateEvent i (items.get ⟨i, h⟩) = .ok q) ∧
    (∀ (items : List Payload) (i : Nat) (h : i < items.length) (e : ErrorResponse),
      (∀ j (hj : j < items.length), j < i →
        (validateEvent j (items.get ⟨j, hj⟩)).isOk = true) →
      validateEvent i (items.get ⟨i, h⟩) = .error e →
      bulk_create_events items = .errored e) ∧
    (∀ (i : Nat) (p : Payload) (e : ErrorResponse),
      validateEvent i p = .error e → e.error_type = "validation_error" →
      ∃ r, e = eventValidationError i r) ∧
    (∀ (i : Nat) (r : String),
      (eventValidationError i r).message = "Event " ++ toString i ++ ": " ++ r ∧
      (eventValidationError i r).error_type = "validation_error") := by
  refine ⟨?_, ?_, ?_, ?_⟩
  · intro items qs hsub i h
    unfold bulk_create_events at hsub
    cases hv : validateAllEvents 0 items with
    | error e =>
      rw [hv] at hsub
      simp at hsub
    | ok qs2 =>
      have := validateAllEvents_ok_nth items 0 qs2 hv i h
      simpa using this
  · intro items i h e hprev herr
    have hv : validateAllEvents 0 items = .error e := by
      apply validateAllEvents_first_error items 0 i h e
      · intro j hj hlt
        simpa using hprev j hj hlt
      · simpa using herr
    unfold bulk_create_events
    rw [hv]
  · intro i p e herr htype
    rcases validateEvent_error_shape i p e herr with hint | hval
    · rw [hint] at htype
      exact absurd htype (by decide)
    · exact hval
  · intro i r
    exact ⟨rfl, rfl⟩

/-- C6 witness: a one-item batch missing `start_date_local` aborts with
the indexed validation envelope and never reaches the submit point. -/
theorem bulk_validates_before_any_network_call_witness :
    bulk_create_events [[("name", JValue.jstr "x")]] =
      .errored (eventValidationError 0 "Missing required field 'start_date_local'") :=
  bulk_validates_before_any_network_call.2.1 [[("name", JValue.jstr "x")]] 0 (by simp)
    (eventValidationError 0 "Missing required field 'start_date_local'")
    (fun j hj hlt => absurd hlt (Nat.not_lt_zero j))
    (by rfl)

/-- C8: in `bulk_create_events` the required-field presence checks run
before the alias correction, so an item without `start_date_local` is
rejected as missing that field even when it carries `start_date` or
`date`, and an item with `start_date_local` but without `name` is
rejected as missing `name` even when it carries `title` — although the
alias map contains exactly the renames that would have made those items
valid. -/
theorem bulk_requires_fields_before_alias_correction :
    (∀ (p : Payload) (i : Nat), containsKey p "start_date_local" = false →
      validateEvent i p =
        .error (eventValidationError i "Missing required field 'start_date_local'")) ∧
    (∀ (p : Payload) (i : Nat), containsKey p "start_date_local" = true →
      containsKey p "name" = false →
      validateEvent i p = .error (eventValidationError i "Missing required field 'name'")) ∧
    (lookupStr _FIELD_ALIASES "title" = some "name" ∧
     lookupStr _FIELD_ALIASES "date" = some "start_date_local" ∧
     lookupStr _FIELD_ALIASES "start_date" = some "start_date_local") := by
  refine ⟨?_, ?_, rfl, rfl, rfl⟩
  · intro p i h
    unfold validateEvent
    rw [h]
    rfl
  · intro p i h1 h2
    unfold validateEvent
    rw [h1, h2]
    rfl

/-- C8 witness: an item supplying `title` instead of `name` and an item
supplying `start_date` instead of `start_date_local`, both rejected for
the missing canonical field. -/
theorem bulk_requires_fields_before_alias_correction_witness :
    validateEvent 0 [("start_date_local", JValue.jstr "2026-03-01"),
      ("title", JValue.jstr "X"), ("category", JValue.jstr "WORKOUT")] =
      .error (eventValidationError 0 "Missing required field 'name'") ∧
    validateEvent 0 [("start_date", JValue.jstr "2026-03-01"),
      ("name", JValue.jstr "X"), ("category", JValue.jstr "WORKOUT")] =
      .error (eventValidationError 0 "Missing required field 'start_date_local'") :=
  ⟨bulk_requires_fields_before_alias_correction.2.1
      [("start_date_local", JValue.jstr "2026-03-01"),
       ("title", JValue.jstr "X"), ("category", JValue.jstr "WORKOUT")] 0 rfl rfl,
   bulk_requires_fields_before_alias_correction.1
      [("start_date", JValue.jstr "2026-03-01"),
       ("name", JValue.jstr "X"), ("category", JValue.jstr "WORKOUT")] 0 rfl⟩
